import Mathlib

/-!
Shallow embedding of `src/stock_fundamentals.py` (repository
orneryhippo/qfundamental): a fetch → score → recommend pipeline for
stock fundamentals.

Modelling choices:
* Python floats are modelled as `PyFloat`: an exact rational, or
  positive infinity (the sentinel `float('inf')` used for missing
  "lower is better" ratios).  All constants in the source (15.0, 3.0,
  2.0, 1.5, 0.10, 1e9, 0.5, -0.3) are exactly representable, so the
  rational model agrees with IEEE doubles on every comparison the code
  performs.
* Python dicts keyed by strings are association lists
  (`List (String × _)`) where insertion order matches the source.
* A `dict[key]` lookup that can raise `KeyError` is `Option`-valued;
  `analyze_stock` returns `Except Unit (Option AnalysisResult)` where
  `.error ()` is an uncaught exception and `.ok none` is Python `None`.
* The fetch boundary is modelled by its observable input: either the
  provider call failed (`none`, the `except` branch) or it produced a
  record of seven optional fields (`some info`, the `try` branch).
-/

namespace StockFundamentals

/-- A Python float value as the source uses them: an exact rational or
positive infinity (`float('inf')`).  NaN never arises in the pipeline. -/
inductive PyFloat where
  | val (q : ℚ)
  | inf
deriving DecidableEq

/-- Python `<` on the modelled floats: `inf` is greater than every
rational and not less than itself. -/
def PyFloat.lt : PyFloat → PyFloat → Bool
  | .val a, .val b => decide (a < b)
  | .val _, .inf => true
  | .inf, _ => false

/-- Python `>` on the modelled floats. -/
def PyFloat.gt (x y : PyFloat) : Bool := PyFloat.lt y x

/-- The provider response as seen by `get_fundamental_data`: the seven
raw fields, each possibly absent (`info.get` returning the default). -/
structure ProviderInfo where
  forwardPE : Option PyFloat
  priceToBook : Option PyFloat
  debtToEquity : Option PyFloat
  currentRatio : Option PyFloat
  profitMargins : Option PyFloat
  marketCap : Option PyFloat
  dividendYield : Option PyFloat
deriving DecidableEq

/-- A Python dict from string keys to float values, in insertion order. -/
abbrev Dict := List (String × PyFloat)

-- Constants for analysis thresholds (lines 29-34 of the source).
def GOOD_PE_RATIO : ℚ := 15.0
def GOOD_PB_RATIO : ℚ := 3.0
def GOOD_DEBT_TO_EQUITY : ℚ := 2.0
def GOOD_CURRENT_RATIO : ℚ := 1.5
def GOOD_PROFIT_MARGIN : ℚ := 0.10
def MIN_MARKET_CAP : ℚ := 1000000000

/-- Python `info.get(key, default)`. -/
def infoGet (v : Option PyFloat) (default : PyFloat) : PyFloat := v.getD default

/-- Embedding of `get_fundamental_data` (lines 36-56): on provider
failure return the empty dict; on success build the seven-field metric
dict, substituting `float('inf')` for missing P/E, P/B and
debt-to-equity and `0.0` for the other missing fields. -/
def get_fundamental_data (fetched : Option ProviderInfo) : Dict :=
  match fetched with
  | none => []
  | some info =>
    [("pe_ratio", infoGet info.forwardPE .inf),
     ("pb_ratio", infoGet info.priceToBook .inf),
     ("debt_to_equity", infoGet info.debtToEquity .inf),
     ("current_ratio", infoGet info.currentRatio (.val 0.0)),
     ("profit_margin", infoGet info.profitMargins (.val 0.0)),
     ("market_cap", infoGet info.marketCap (.val 0.0)),
     ("dividend_yield", infoGet info.dividendYield (.val 0.0))]

/-- Embedding of `calculate_fundamental_score` (lines 58-86): score
each metric (1 good, 0 neutral, -1 bad) with the source's thresholds,
then divide the sum of the scores by their number.  `metrics[key]` can
raise `KeyError`, hence the `Option` result. -/
def calculate_fundamental_score (metrics : Dict) :
    Option (ℚ × List (String × Int)) := do
  let pe ← metrics.lookup "pe_ratio"
  let pb ← metrics.lookup "pb_ratio"
  let debt ← metrics.lookup "debt_to_equity"
  let cr ← metrics.lookup "current_ratio"
  let pm ← metrics.lookup "profit_margin"
  let mc ← metrics.lookup "market_cap"
  let scores : List (String × Int) :=
    [("pe", if pe.lt (.val GOOD_PE_RATIO) then 1
            else if pe.gt (.val ( GOOD_PE_RATIO * 2)) then -1 else 0),
     ("pb", if pb.lt (.val GOOD_PB_RATIO) then 1
            else if pb.gt (.val ( GOOD_PB_RATIO * 2)) then -1 else 0),
     ("debt", if debt.lt (.val GOOD_DEBT_TO_EQUITY) then 1
              else if debt.gt (.val (GOOD_DEBT_TO_EQUITY * 1.5)) then -1 else 0),
     ("liquidity", if cr.gt (.val GOOD_CURRENT_RATIO) then 1
                   else if cr.lt (.val 1.0) then -1 else 0),
     ("profitability", if pm.gt (.val GOOD_PROFIT_MARGIN) then 1
                       else if pm.lt (.val 0) then -1 else 0),
     ("size", if mc.gt (.val MIN_MARKET_CAP) then 1 else -1)]
  let total_score : ℚ := ((scores.map Prod.snd).sum : ℤ) / (scores.length : ℚ)
  return (total_score, scores)

/-- Embedding of `get_recommendation` (lines 88-97). -/
def get_recommendation (score : ℚ) : String :=
  if score ≥ 0.5 then "BUY"
  else if score ≤ -0.3 then "SELL"
  else "HOLD"

/-- The record `analyze_stock` assembles (lines 114-120). -/
structure AnalysisResult where
  ticker : String
  metrics : Dict
  scores : List (String × Int)
  overall_score : ℚ
  recommendation : String
deriving DecidableEq

/-- Embedding of `analyze_stock` (lines 99-123): fetch, return `None`
on the empty dict, otherwise score and recommend and assemble the
result.  `.error` would be an uncaught `KeyError` escaping
`calculate_fundamental_score`. -/
def analyze_stock (ticker : String) (fetched : Option ProviderInfo) :
    Except Unit (Option AnalysisResult) :=
  let metrics := get_fundamental_data fetched
  if metrics.isEmpty then .ok none
  else
    match calculate_fundamental_score metrics with
    | none => .error ()
    | some (overall_score, individual_scores) =>
      .ok (some { ticker := ticker
                  metrics := metrics
                  scores := individual_scores
                  overall_score := overall_score
                  recommendation := get_recommendation overall_score })

/-- The normalized `MetricSet` of the spec: the seven named numeric
fields a successful fetch produces. -/
structure MetricSet where
  pe_ratio : PyFloat
  pb_ratio : PyFloat
  debt_to_equity : PyFloat
  current_ratio : PyFloat
  profit_margin : PyFloat
  market_cap : PyFloat
  dividend_yield : PyFloat
deriving DecidableEq

/-- A `MetricSet` as the dict `calculate_fundamental_score` consumes,
keys in the insertion order of `get_fundamental_data`. -/
def MetricSet.toDict (m : MetricSet) : Dict :=
  [("pe_ratio", m.pe_ratio),
   ("pb_ratio", m.pb_ratio),
   ("debt_to_equity", m.debt_to_equity),
   ("current_ratio", m.current_ratio),
   ("profit_margin", m.profit_margin),
   ("market_cap", m.market_cap),
   ("dividend_yield", m.dividend_yield)]

/-- The strong all-good metric set of the spec's first end-to-end
scenario. -/
def strongMetrics : MetricSet :=
  ⟨.val 10, .val 2, .val 1, .val 2, .val 0.2, .val 5000000000, .val 0⟩

/-- The weak all-bad metric set of the spec's second end-to-end
scenario. -/
def weakMetrics : MetricSet :=
  ⟨.val 50, .val 10, .val 5, .val 0.5, .val (-0.1), .val 500000000, .val 0⟩

/-- A metric set whose market cap sits exactly at the one-billion
threshold. -/
def atCapMetrics : MetricSet :=
  ⟨.val 10, .val 2, .val 1, .val 2, .val 0.2, .val 1000000000, .val 0⟩

/-- A metric set whose market cap is one dollar above the threshold. -/
def aboveCapMetrics : MetricSet :=
  ⟨.val 10, .val 2, .val 1, .val 2, .val 0.2, .val 1000000001, .val 0⟩

/-- A provider response in which all seven fields are absent. -/
def allAbsent : ProviderInfo := ⟨none, none, none, none, none, none, none⟩

-- Helper lemmas about the shape of a single banded category score.

theorem band_score_mem (c1 c2 : Bool) :
    (if c1 then (1 : ℤ) else if c2 then -1 else 0) = -1
    ∨ (if c1 then (1 : ℤ) else if c2 then -1 else 0) = 0
    ∨ (if c1 then (1 : ℤ) else if c2 then -1 else 0) = 1 := by
  cases c1 <;> cases c2 <;> simp

theorem band_score_bounds (c1 c2 : Bool) :
    (-1 : ℤ) ≤ (if c1 then 1 else if c2 then -1 else 0)
    ∧ (if c1 then (1 : ℤ) else if c2 then -1 else 0) ≤ 1 := by
  cases c1 <;> cases c2 <;> simp

theorem size_score_mem (c : Bool) :
    (if c then (1 : ℤ) else -1) = -1 ∨ (if c then (1 : ℤ) else -1) = 0
    ∨ (if c then (1 : ℤ) else -1) = 1 := by
  cases c <;> simp

theorem size_score_bounds (c : Bool) :
    (-1 : ℤ) ≤ (if c then 1 else -1) ∧ (if c then (1 : ℤ) else -1) ≤ 1 := by
  cases c <;> simp

theorem recommendation_mem (q : ℚ) :
    get_recommendation q = "BUY" ∨ get_recommendation q = "SELL"
    ∨ get_recommendation q = "HOLD" := by
  unfold get_recommendation
  split
  · exact Or.inl rfl
  split
  · exact Or.inr (Or.inl rfl)
  · exact Or.inr (Or.inr rfl)

/-- Claim C1: for every MetricSet, the scorer assigns each of the five
banded categories its score by the spec's thresholds: price-to-earnings
scores 1 if < 15.0, -1 if > 30.0, else 0; price-to-book 1 if < 3.0, -1
if > 6.0, else 0; debt 1 if debt-to-equity < 2.0, -1 if > 3.0, else 0;
liquidity 1 if current ratio > 1.5, -1 if < 1.0, else 0; profitability
1 if profit margin > 0.10, -1 if < 0.0, else 0. -/
theorem band_thresholds (m : MetricSet) : ∃ total scores,
    calculate_fundamental_score m.toDict = some (total, scores)
    ∧ scores.lookup "pe" = some (if m.pe_ratio.lt (.val 15.0) then 1
        else if m.pe_ratio.gt (.val 30.0) then -1 else 0)
    ∧ scores.lookup "pb" = some (if m.pb_ratio.lt (.val 3.0) then 1
        else if m.pb_ratio.gt (.val 6.0) then -1 else 0)
    ∧ scores.lookup "debt" = some (if m.debt_to_equity.lt (.val 2.0) then 1
        else if m.debt_to_equity.gt (.val 3.0) then -1 else 0)
    ∧ scores.lookup "liquidity" = some (if m.current_ratio.gt (.val 1.5) then 1
        else if m.current_ratio.lt (.val 1.0) then -1 else 0)
    ∧ scores.lookup "profitability" = some (if m.profit_margin.gt (.val 0.10) then 1
        else if m.profit_margin.lt (.val 0.0) then -1 else 0) := by
  refine ⟨_, _, rfl, ?_, ?_, ?_, ?_, ?_⟩ <;>
    simp [List.lookup, GOOD_PE_RATIO, GOOD_PB_RATIO, GOOD_DEBT_TO_EQUITY,
      GOOD_CURRENT_RATIO, GOOD_PROFIT_MARGIN] <;> norm_num

/-- Claim C2: the recommender returns BUY if the score is at least 0.5,
SELL if it is at most -0.3, and HOLD otherwise; in particular 0.5 maps
to BUY, 0.4999 to HOLD, -0.3 to SELL and -0.2999 to HOLD. -/
theorem recommendation_cutoffs :
    (∀ score : ℚ, 0.5 ≤ score → get_recommendation score = "BUY")
    ∧ (∀ score : ℚ, score ≤ -0.3 → get_recommendation score = "SELL")
    ∧ (∀ score : ℚ, -0.3 < score → score < 0.5 → get_recommendation score = "HOLD")
    ∧ get_recommendation 0.5 = "BUY"
    ∧ get_recommendation 0.4999 = "HOLD"
    ∧ get_recommendation (-0.3) = "SELL"
    ∧ get_recommendation (-0.2999) = "HOLD" := by
  refine ⟨?_, ?_, ?_, ?_, ?_, ?_, ?_⟩
  · intro score h
    simp [get_recommendation, h]
  · intro score h
    have h1 : ¬ ((0.5 : ℚ) ≤ score) := by norm_num at h ⊢; linarith
    simp [get_recommendation, h1, h]
  · intro score h1 h2
    have h3 : ¬ ((0.5 : ℚ) ≤ score) := by norm_num at h2 ⊢; linarith
    have h4 : ¬ (score ≤ (-0.3 : ℚ)) := by norm_num at h1 ⊢; linarith
    simp [get_recommendation, h3, h4]
  all_goals norm_num [get_recommendation]

/-- Witness for C2: the three conditional cutoff rules applied at the
concrete scores 0.75, -0.5 and 0.1. -/
theorem recommendation_cutoffs_witness :
    get_recommendation 0.75 = "BUY" ∧ get_recommendation (-0.5) = "SELL"
    ∧ get_recommendation 0.1 = "HOLD" :=
  ⟨recommendation_cutoffs.1 0.75 (by norm_num),
   recommendation_cutoffs.2.1 (-0.5) (by norm_num),
   recommendation_cutoffs.2.2.1 0.1 (by norm_num) (by norm_num)⟩

/-- Claim C3: the size category score is binary: 1 when market cap
exceeds 1,000,000,000 and -1 otherwise; a market cap of exactly one
billion scores -1 and one of 1,000,000,001 scores 1. -/
theorem size_binary :
    (∀ m : MetricSet, ∃ total scores,
      calculate_fundamental_score m.toDict = some (total, scores)
      ∧ scores.lookup "size" = some (if m.market_cap.gt (.val 1000000000) then 1 else -1))
    ∧ (∀ m : MetricSet, m.market_cap = .val 1000000000 → ∃ total scores,
      calculate_fundamental_score m.toDict = some (total, scores)
      ∧ scores.lookup "size" = some (-1))
    ∧ (∀ m : MetricSet, m.market_cap = .val 1000000001 → ∃ total scores,
      calculate_fundamental_score m.toDict = some (total, scores)
      ∧ scores.lookup "size" = some 1) := by
  refine ⟨?_, ?_, ?_⟩ <;> intro m
  · exact ⟨_, _, rfl, by simp [List.lookup, MIN_MARKET_CAP]⟩
  · intro h
    exact ⟨_, _, rfl, by simp [List.lookup, MIN_MARKET_CAP, h, PyFloat.gt, PyFloat.lt]⟩
  · intro h
    refine ⟨_, _, rfl, ?_⟩
    simp [List.lookup, MIN_MARKET_CAP, h, PyFloat.gt, PyFloat.lt]
    norm_num

/-- Witness for C3: the boundary rules applied at concrete metric sets
with market caps of exactly one billion and one dollar above it. -/
theorem size_binary_witness :
    (∃ total scores,
      calculate_fundamental_score atCapMetrics.toDict = some (total, scores)
      ∧ scores.lookup "size" = some (-1))
    ∧ (∃ total scores,
      calculate_fundamental_score aboveCapMetrics.toDict = some (total, scores)
      ∧ scores.lookup "size" = some 1) :=
  ⟨size_binary.2.1 atCapMetrics rfl, size_binary.2.2 aboveCapMetrics rfl⟩

/-- Claim C4: the overall score equals the arithmetic mean of the six
integer category scores, i.e. their sum divided by 6. -/
theorem overall_is_mean (m : MetricSet) : ∃ total scores,
    calculate_fundamental_score m.toDict = some (total, scores)
    ∧ total = (((scores.map Prod.snd).sum : ℤ) : ℚ) / 6 := by
  refine ⟨_, _, rfl, ?_⟩
  norm_num

/-- Claim C5: the ScoreSet contains exactly the six categories pe, pb,
debt, liquidity, profitability and size with no extra keys, every
category score is in \x7b-1, 0, 1\x7d, and the overall score lies in
[-1, 1]. -/
theorem scoreset_invariants (m : MetricSet) : ∃ total scores,
    calculate_fundamental_score m.toDict = some (total, scores)
    ∧ scores.map Prod.fst = ["pe", "pb", "debt", "liquidity", "profitability", "size"]
    ∧ (scores.map Prod.snd).all (fun s => s == -1 || s == 0 || s == 1) = true
    ∧ -1 ≤ total ∧ total ≤ 1 := by
  refine ⟨_, _, rfl, rfl, ?_, ?_, ?_⟩
  · simp only [List.map_cons, List.map_nil, List.all_cons, List.all_nil,
      Bool.and_eq_true, Bool.or_eq_true, beq_iff_eq, or_assoc]
    exact ⟨band_score_mem _ _, band_score_mem _ _, band_score_mem _ _,
      band_score_mem _ _, band_score_mem _ _, size_score_mem _, trivial⟩
  all_goals {
    have h1 := band_score_bounds (m.pe_ratio.lt (.val GOOD_PE_RATIO))
      (m.pe_ratio.gt (.val ( GOOD_PE_RATIO * 2)))
    have h2 := band_score_bounds (m.pb_ratio.lt (.val GOOD_PB_RATIO))
      (m.pb_ratio.gt (.val ( GOOD_PB_RATIO * 2)))
    have h3 := band_score_bounds (m.debt_to_equity.lt (.val GOOD_DEBT_TO_EQUITY))
      (m.debt_to_equity.gt (.val (GOOD_DEBT_TO_EQUITY * 1.5)))
    have h4 := band_score_bounds (m.current_ratio.gt (.val GOOD_CURRENT_RATIO))
      (m.current_ratio.lt (.val 1.0))
    have h5 := band_score_bounds (m.profit_margin.gt (.val GOOD_PROFIT_MARGIN))
      (m.profit_margin.lt (.val 0))
    have h6 := size_score_bounds (m.market_cap.gt (.val MIN_MARKET_CAP))
    simp only [List.map_cons, List.map_nil, List.sum_cons, List.sum_nil,
      List.length_cons, List.length_nil, add_zero]
    rw [show ((0 + 1 + 1 + 1 + 1 + 1 + 1 : ℕ) : ℚ) = 6 by norm_num]
    first
    | (rw [le_div_iff₀ (by norm_num : (0:ℚ) < 6),
           show (-1 : ℚ) * 6 = ((-6 : ℤ) : ℚ) by norm_num, Int.cast_le])
    | (rw [div_le_iff₀ (by norm_num : (0:ℚ) < 6),
           show (1 : ℚ) * 6 = ((6 : ℤ) : ℚ) by norm_num, Int.cast_le])
    linarith [h1.1, h1.2, h2.1, h2.2, h3.1, h3.2, h4.1, h4.2, h5.1, h5.2, h6.1, h6.2]
  }

/-- Claim C6: each provider field read as absent is replaced by its
sentinel default: positive infinity for price-to-earnings,
price-to-book and debt-to-equity, and zero for current ratio, profit
margin, market cap and dividend yield; in particular a missing
debt-to-equity yields a debt score of -1. -/
theorem missing_field_defaults (info : ProviderInfo) :
    (info.forwardPE = none →
      (get_fundamental_data (some info)).lookup "pe_ratio" = some PyFloat.inf)
    ∧ (info.priceToBook = none →
      (get_fundamental_data (some info)).lookup "pb_ratio" = some PyFloat.inf)
    ∧ (info.debtToEquity = none →
      (get_fundamental_data (some info)).lookup "debt_to_equity" = some PyFloat.inf)
    ∧ (info.currentRatio = none →
      (get_fundamental_data (some info)).lookup "current_ratio" = some (PyFloat.val 0))
    ∧ (info.profitMargins = none →
      (get_fundamental_data (some info)).lookup "profit_margin" = some (PyFloat.val 0))
    ∧ (info.marketCap = none →
      (get_fundamental_data (some info)).lookup "market_cap" = some (PyFloat.val 0))
    ∧ (info.dividendYield = none →
      (get_fundamental_data (some info)).lookup "dividend_yield" = some (PyFloat.val 0))
    ∧ (info.debtToEquity = none → ∃ total scores,
      calculate_fundamental_score (get_fundamental_data (some info)) = some (total, scores)
      ∧ scores.lookup "debt" = some (-1)) := by
  refine ⟨?_, ?_, ?_, ?_, ?_, ?_, ?_, ?_⟩ <;> intro h
  · simp [get_fundamental_data, infoGet, h, List.lookup]
  · simp [get_fundamental_data, infoGet, h, List.lookup]
  · simp [get_fundamental_data, infoGet, h, List.lookup]
  · simp [get_fundamental_data, infoGet, h, List.lookup]
    norm_num
  · simp [get_fundamental_data, infoGet, h, List.lookup]
    norm_num
  · simp [get_fundamental_data, infoGet, h, List.lookup]
    norm_num
  · simp [get_fundamental_data, infoGet, h, List.lookup]
    norm_num
  · refine ⟨_, _, rfl, ?_⟩
    simp [get_fundamental_data, infoGet, h, List.lookup, PyFloat.lt, PyFloat.gt,
      GOOD_DEBT_TO_EQUITY]

/-- Witness for C6: the default rules applied to the provider response
with every field absent. -/
theorem missing_field_defaults_witness :
    (get_fundamental_data (some allAbsent)).lookup "pe_ratio" = some PyFloat.inf
    ∧ (get_fundamental_data (some allAbsent)).lookup "pb_ratio" = some PyFloat.inf
    ∧ (get_fundamental_data (some allAbsent)).lookup "debt_to_equity" = some PyFloat.inf
    ∧ (get_fundamental_data (some allAbsent)).lookup "current_ratio" = some (PyFloat.val 0)
    ∧ (get_fundamental_data (some allAbsent)).lookup "profit_margin" = some (PyFloat.val 0)
    ∧ (get_fundamental_data (some allAbsent)).lookup "market_cap" = some (PyFloat.val 0)
    ∧ (get_fundamental_data (some allAbsent)).lookup "dividend_yield" = some (PyFloat.val 0)
    ∧ (∃ total scores,
      calculate_fundamental_score (get_fundamental_data (some allAbsent)) = some (total, scores)
      ∧ scores.lookup "debt" = some (-1)) := by
  have h := missing_field_defaults allAbsent
  exact ⟨h.1 rfl, h.2.1 rfl, h.2.2.1 rfl, h.2.2.2.1 rfl, h.2.2.2.2.1 rfl,
    h.2.2.2.2.2.1 rfl, h.2.2.2.2.2.2.1 rfl, h.2.2.2.2.2.2.2 rfl⟩

/-- Claim C7: when the fetch fails the fetcher returns an empty result
rather than raising, and the orchestrator returns an absent result with
no exception; when the fetcher yields data the orchestrator invokes the
scorer then the recommender and returns an assembled AnalysisResult. -/
theorem pipeline_absent_or_assembled (ticker : String) :
    get_fundamental_data none = []
    ∧ analyze_stock ticker none = .ok none
    ∧ ∀ info : ProviderInfo, ∃ r : AnalysisResult,
        analyze_stock ticker (some info) = .ok (some r)
        ∧ r.ticker = ticker
        ∧ r.metrics = get_fundamental_data (some info)
        ∧ calculate_fundamental_score r.metrics = some (r.overall_score, r.scores)
        ∧ r.recommendation = get_recommendation r.overall_score := by
  refine ⟨rfl, rfl, ?_⟩
  intro info
  exact ⟨_, rfl, rfl, rfl, rfl, rfl⟩

/-- Claim C8: the all-good metric set (pe 10, pb 2, debt 1, current
ratio 2, margin 0.2, cap 5e9) scores 1 in every category with overall
score 1.0 and recommendation BUY; the all-bad metric set (pe 50, pb 10,
debt 5, current ratio 0.5, margin -0.1, cap 5e8) scores -1 in every
category with overall score -1.0 and recommendation SELL. -/
theorem scenario_buy_and_sell :
    calculate_fundamental_score strongMetrics.toDict =
      some (1, [("pe", 1), ("pb", 1), ("debt", 1), ("liquidity", 1),
                ("profitability", 1), ("size", 1)])
    ∧ get_recommendation 1 = "BUY"
    ∧ calculate_fundamental_score weakMetrics.toDict =
      some (-1, [("pe", -1), ("pb", -1), ("debt", -1), ("liquidity", -1),
                 ("profitability", -1), ("size", -1)])
    ∧ get_recommendation (-1) = "SELL" := by
  refine ⟨?_, ?_, ?_, ?_⟩
  · simp [calculate_fundamental_score, strongMetrics, MetricSet.toDict,
      List.lookup, PyFloat.lt, PyFloat.gt, GOOD_PE_RATIO, GOOD_PB_RATIO,
      GOOD_DEBT_TO_EQUITY, GOOD_CURRENT_RATIO, GOOD_PROFIT_MARGIN, MIN_MARKET_CAP]
    norm_num
  · norm_num [get_recommendation]
  · simp [calculate_fundamental_score, weakMetrics, MetricSet.toDict,
      List.lookup, PyFloat.lt, PyFloat.gt, GOOD_PE_RATIO, GOOD_PB_RATIO,
      GOOD_DEBT_TO_EQUITY, GOOD_CURRENT_RATIO, GOOD_PROFIT_MARGIN, MIN_MARKET_CAP]
    norm_num
  · norm_num [get_recommendation]

/-- Claim C9: the scorer and the recommender are total over well-formed
metric sets: scoring always yields a result (no key lookup failure),
the divisor is the constant 6, and the recommendation is always one of
the three labels. -/
theorem scorer_recommender_total (m : MetricSet) : ∃ total scores,
    calculate_fundamental_score m.toDict = some (total, scores)
    ∧ scores.length = 6
    ∧ (get_recommendation total = "BUY" ∨ get_recommendation total = "SELL"
       ∨ get_recommendation total = "HOLD") :=
  ⟨_, _, rfl, rfl, recommendation_mem _⟩

/-- Claim C10: two metric sets that agree on every field except
dividend yield produce the same (overall score, ScoreSet) pair and
hence the same recommendation: dividend yield never influences
scoring. -/
theorem dividend_yield_noninterference (pe pb de cr pm mc dy1 dy2 : PyFloat) :
    calculate_fundamental_score (MetricSet.toDict ⟨pe, pb, de, cr, pm, mc, dy1⟩) =
      calculate_fundamental_score (MetricSet.toDict ⟨pe, pb, de, cr, pm, mc, dy2⟩)
    ∧ Option.map (fun p => get_recommendation p.1)
        (calculate_fundamental_score (MetricSet.toDict ⟨pe, pb, de, cr, pm, mc, dy1⟩)) =
      Option.map (fun p => get_recommendation p.1)
        (calculate_fundamental_score (MetricSet.toDict ⟨pe, pb, de, cr, pm, mc, dy2⟩)) :=
  ⟨rfl, rfl⟩

end StockFundamentals
